import Mathlib

/-!
Verification development for the invoice-financing lifecycle engine.

The definitions below are a shallow embedding of the TypeScript source:

* `simpleRiskBand` — the simple-mode risk banding inside
  `simulateInvoiceProcessing` (UploadInvoice component).
* `calculateOffer` — the offer table in the OfferScreen component.
* `calculateRiskScore`, `determineRiskBand` — the scored risk mode in
  `GenkitAIService` (genkit-service.tsx).
* `markPaid`, `getAdvances` — the `POST /advances/:id/mark-paid` and
  `GET /advances` handlers of the server (index.tsx), over an explicit
  key-value store state.

JavaScript numbers are modelled exactly: monetary amounts as `ℤ`,
fractional percentages and scores as `ℚ`, `Math.floor`/`Math.ceil` as
`Int.floor`/`Int.ceil` on `ℚ`.  Timestamps are milliseconds since the
epoch (`ℤ`), as produced by `Date.now()` / `getTime()`.
-/

/-- The risk band union type `'low' | 'medium' | 'high'` of the source. -/
inductive RiskBand where
  | low
  | medium
  | high
deriving DecidableEq, Repr

/-- The string that the source stores for a `RiskBand` value. -/
def RiskBand.str : RiskBand → String
  | .low => "low"
  | .medium => "medium"
  | .high => "high"

/-- Simple-mode risk banding, from `simulateInvoiceProcessing`
(UploadInvoice component):
`amount < 25000 && daysToDue < 60` ⇒ low, else
`amount < 40000 && daysToDue < 45` ⇒ medium, else high. -/
def simpleRiskBand (amount daysToDue : ℤ) : RiskBand :=
  if amount < 25000 ∧ daysToDue < 60 then .low
  else if amount < 40000 ∧ daysToDue < 45 then .medium
  else .high

/-- Spec-words rendering of the simple mode (§4.3 of the spec), for the
refinement comparison with `simpleRiskBand`: "amount `< 25000` and
days-to-due `< 60` ⇒ low; amount `< 40000` and days-to-due `< 45` ⇒
medium; else ⇒ high". -/
def specSimpleMode (amount daysToDue : ℤ) : RiskBand :=
  if amount < 25000 then
    if daysToDue < 60 then .low
    else if amount < 40000 ∧ daysToDue < 45 then .medium
    else .high
  else if amount < 40000 ∧ daysToDue < 45 then .medium
  else .high

/-- Numeric risk level used to state monotonicity: low < medium < high. -/
def RiskBand.level : RiskBand → ℕ
  | .low => 0
  | .medium => 1
  | .high => 2

/-- The record returned by `calculateOffer` in the OfferScreen component. -/
structure Offer where
  advancePercent : ℚ
  feePercent : ℚ
  advanceAmount : ℤ
  fee : ℤ
  netReceived : ℤ
  remainingAmount : ℤ
deriving DecidableEq, Repr

/-- `calculateOffer` from the OfferScreen component: a switch on the risk
band string (default branch = the medium row), then
`advanceAmount = Math.floor(amount * advancePercent / 100)`,
`fee = Math.floor(amount * feePercent / 100)`,
`netReceived = advanceAmount`,
`remainingAmount = amount - advanceAmount - fee`. -/
def calculateOffer (amount : ℤ) (riskBand : String) : Offer :=
  let pcts : ℚ × ℚ :=
    if riskBand = "low" then (90, 2.5)
    else if riskBand = "medium" then (85, 3.0)
    else if riskBand = "high" then (80, 3.5)
    else (85, 3.0)
  let advanceAmount : ℤ := ⌊((amount : ℚ) * pcts.1) / 100⌋
  let fee : ℤ := ⌊((amount : ℚ) * pcts.2) / 100⌋
  { advancePercent := pcts.1
    feePercent := pcts.2
    advanceAmount := advanceAmount
    fee := fee
    netReceived := advanceAmount
    remainingAmount := amount - advanceAmount - fee }

/-- Spec-words rendering of the OfferCalculator (§4.4 of the spec), for
the refinement comparison with `calculateOffer`: the fixed banded table
low → 90/2.5, medium → 85/3.0, high → 80/3.5, unknown band → the medium
row; amounts floored to integer minor units; `netReceived =
advanceAmount`; `remainingAmount = amount − advanceAmount − feeAmount`. -/
def specOfferCalculator (amount : ℤ) (riskBand : String) : Offer :=
  let advancePercent : ℚ :=
    if riskBand = "low" then 90 else if riskBand = "high" then 80 else 85
  let feePercent : ℚ :=
    if riskBand = "low" then 2.5 else if riskBand = "high" then 3.5 else 3
  let advanceAmount : ℤ := ⌊((amount : ℚ) * advancePercent) / 100⌋
  let feeAmount : ℤ := ⌊((amount : ℚ) * feePercent) / 100⌋
  { advancePercent := advancePercent
    feePercent := feePercent
    advanceAmount := advanceAmount
    fee := feeAmount
    netReceived := advanceAmount
    remainingAmount := amount - advanceAmount - feeAmount }

/-- `calculateRiskScore` from `GenkitAIService` (genkit-service.tsx):
base score 0.8, amount and days-to-due deductions, then multiplication
by the buyer-profile, payment-history and industry-risk ratios, finally
`Math.max(0.1, Math.min(1.0, score))`. -/
def calculateRiskScore (amount daysToDue : ℤ)
    (buyerProfile paymentHistory industryRisk : ℚ) : ℚ :=
  let score : ℚ := 0.8
  let score := if amount > 50000 then score - 0.1
    else if amount > 30000 then score - 0.05 else score
  let score := if daysToDue > 60 then score - 0.1
    else if daysToDue > 45 then score - 0.05 else score
  let score := score * buyerProfile
  let score := score * paymentHistory
  let score := score * industryRisk
  max 0.1 (min 1.0 score)

/-- `determineRiskBand` from `GenkitAIService`: score ≥ 0.8 → low,
score ≥ 0.6 → medium, else high. -/
def determineRiskBand (riskScore : ℚ) : RiskBand :=
  if riskScore ≥ 0.8 then .low
  else if riskScore ≥ 0.6 then .medium
  else .high

/-- Spec-words rendering of the scored mode (§4.3 of the spec), for the
refinement comparison with `calculateRiskScore`: start from base score
0.8; subtract 0.10 if amount > 50000 else 0.05 if amount > 30000;
subtract 0.10 if days-to-due > 60 else 0.05 if days-to-due > 45;
multiply by each auxiliary ratio in turn; clamp to [0.1, 1.0]. -/
def specScoredMode (amount daysToDue : ℤ)
    (buyerProfile paymentHistory industryRisk : ℚ) : ℚ :=
  let base : ℚ := 0.8
  let afterAmount : ℚ :=
    base - (if amount > 50000 then 0.1 else if amount > 30000 then 0.05 else 0)
  let afterDays : ℚ :=
    afterAmount -
      (if daysToDue > 60 then 0.1 else if daysToDue > 45 then 0.05 else 0)
  let raw : ℚ := afterDays * buyerProfile * paymentHistory * industryRisk
  if raw < 0.1 then 0.1 else if raw > 1 then 1 else raw

/-- The Advance record created by the accept-offer handler (index.tsx):
`createdAt` is the creation timestamp in milliseconds since the epoch
(the source stores an ISO string and reads it back with
`new Date(...).getTime()`). -/
structure Advance where
  id : String
  invoiceId : String
  userId : String
  filename : String
  buyer : String
  invoiceAmount : ℤ
  advanceAmount : ℤ
  feePercent : ℚ
  dueDate : String
  status : String
  createdAt : ℤ
  riskBand : String
deriving DecidableEq, Repr

/-- The Settlement record created by the mark-paid handler (index.tsx).
`paidDate` and `createdAt` are milliseconds since the epoch. -/
structure Settlement where
  id : String
  invoiceId : String
  userId : String
  filename : String
  buyer : String
  invoiceAmount : ℤ
  advanceAmount : ℤ
  feeAmount : ℤ
  feePercent : ℚ
  remainingAmount : ℤ
  settlementAmount : ℤ
  paidDate : ℤ
  createdAt : ℤ
  riskBand : String
  daysToPay : ℤ
deriving DecidableEq, Repr

/-- Modelled from the spec: `KeyValueStore.set` (§4.1) — `kv_store.tsx` is
referenced by the server but is not among the sources; `set(key, value)`
overwrites unconditionally.  Modelled as an association-list update. -/
def kvSet {α : Type} (store : List (String × α)) (key : String) (v : α) :
    List (String × α) :=
  match store with
  | [] => [(key, v)]
  | (k, w) :: rest =>
      if k = key then (key, v) :: rest else (k, w) :: kvSet rest key v

/-- Modelled from the spec: `KeyValueStore.get` (§4.1) — returns the stored
value or absent (`none`), not an error. -/
def kvGet {α : Type} (store : List (String × α)) (key : String) : Option α :=
  match store with
  | [] => none
  | (k, w) :: rest => if k = key then some w else kvGet rest key

/-- Modelled from the spec: `KeyValueStore.getByPrefix` (§4.1) — returns the
values of all keys that start with the given string. -/
def kvGetByPrefix {α : Type} (store : List (String × α)) (pre : String) :
    List α :=
  (store.filter (fun e => e.1.startsWith pre)).map (fun e => e.2)

/-- The server's persistent state.  The real store is one keyspace; the
entity kinds live in the disjoint key namespaces `advance:<id>`,
`settlement:<id>` and `user:<uid>:<kind>:<id>`, modelled as three
association lists keyed by the id (respectively the full index key). -/
structure ServerState where
  advances : List (String × Advance)
  settlements : List (String × Settlement)
  userIndex : List (String × String)
deriving Repr

/-- `DEFAULT_USER_ID` from index.tsx: every request runs as the demo user. -/
def DEFAULT_USER_ID : String := "demo-user-123"

/-- The `POST /advances/:advanceId/mark-paid` handler (index.tsx): look up
the advance (404 if absent), overwrite it with status `"paid"`, then
create a settlement whose monetary fields are recomputed from the
advance's own fields, with
`feeAmount = Math.floor(invoiceAmount * feePercent / 100)`,
`remainingAmount = invoiceAmount - advanceAmount - feeAmount`,
`daysToPay = Math.ceil((Date.now() - createdAt) / 86400000)`.
`now` is the request time in milliseconds, `settlementId` the generated
UUID. -/
def markPaid (st : ServerState) (advanceId : String) (now : ℤ)
    (settlementId : String) : Except String ServerState :=
  match kvGet st.advances advanceId with
  | none => .error "Advance not found"
  | some advance =>
      let updatedAdvance := { advance with status := "paid" }
      let feeAmount : ℤ :=
        ⌊((advance.invoiceAmount : ℚ) * advance.feePercent) / 100⌋
      let remainingAmount : ℤ :=
        advance.invoiceAmount - advance.advanceAmount - feeAmount
      let daysToPay : ℤ := ⌈((now - advance.createdAt : ℤ) : ℚ) / 86400000⌉
      let settlement : Settlement :=
        { id := settlementId
          invoiceId := advance.invoiceId
          userId := DEFAULT_USER_ID
          filename := advance.filename
          buyer := advance.buyer
          invoiceAmount := advance.invoiceAmount
          advanceAmount := advance.advanceAmount
          feeAmount := feeAmount
          feePercent := advance.feePercent
          remainingAmount := remainingAmount
          settlementAmount := remainingAmount
          paidDate := now
          createdAt := advance.createdAt
          riskBand := advance.riskBand
          daysToPay := daysToPay }
      .ok { st with
        advances := kvSet st.advances advanceId updatedAdvance
        settlements := kvSet st.settlements settlementId settlement
        userIndex := kvSet st.userIndex
          ("user:" ++ DEFAULT_USER_ID ++ ":settlement:" ++ settlementId)
          settlementId }

/-- The `GET /advances` handler (index.tsx): prefix-scan the demo user's
advance index, resolve each id to its primary record, keep only the
records that exist, then sort by `createdAt` descending. -/
def getAdvances (st : ServerState) : List Advance :=
  let advanceKeys :=
    kvGetByPrefix st.userIndex ("user:" ++ DEFAULT_USER_ID ++ ":advance:")
  let advances :=
    advanceKeys.filterMap (fun advanceId => kvGet st.advances advanceId)
  advances.mergeSort (fun a b => decide (b.createdAt ≤ a.createdAt))

/-- A concrete active advance, used to instantiate the mark-paid
theorems. -/
def advActive : Advance :=
  { id := "a2"
    invoiceId := "i2"
    userId := DEFAULT_USER_ID
    filename := "INV-2024-002.pdf"
    buyer := "TechStart Inc"
    invoiceAmount := 18000
    advanceAmount := 15300
    feePercent := 3
    dueDate := "2026-12-01"
    status := "active"
    createdAt := 0
    riskBand := "medium" }

/-- A server state holding only `advActive`. -/
def stActive : ServerState :=
  { advances := [("a2", advActive)]
    settlements := []
    userIndex := [("user:demo-user-123:advance:a2", "a2")] }

/-- A concrete advance that is already in status `"paid"`. -/
def advPaid : Advance :=
  { id := "a1"
    invoiceId := "i1"
    userId := DEFAULT_USER_ID
    filename := "INV-2024-001.pdf"
    buyer := "Acme Corp"
    invoiceAmount := 25000
    advanceAmount := 22500
    feePercent := 2.5
    dueDate := "2026-11-10"
    status := "paid"
    createdAt := 0
    riskBand := "low" }

/-- The settlement created when `advPaid` was first marked paid. -/
def setl0 : Settlement :=
  { id := "s0"
    invoiceId := "i1"
    userId := DEFAULT_USER_ID
    filename := "INV-2024-001.pdf"
    buyer := "Acme Corp"
    invoiceAmount := 25000
    advanceAmount := 22500
    feeAmount := 625
    feePercent := 2.5
    remainingAmount := 1875
    settlementAmount := 1875
    paidDate := 432000000
    createdAt := 0
    riskBand := "low"
    daysToPay := 5 }

/-- A server state in which advance "a1" is already paid and already has
its settlement "s0". -/
def stPaid : ServerState :=
  { advances := [("a1", advPaid)]
    settlements := [("s0", setl0)]
    userIndex := [("user:demo-user-123:advance:a1", "a1"),
                  ("user:demo-user-123:settlement:s0", "s0")] }

/-- A server state whose advance index holds only dangling pointers. -/
def stDangling : ServerState :=
  { advances := []
    settlements := []
    userIndex := [("user:demo-user-123:advance:ghost", "ghost"),
                  ("user:demo-user-123:advance:gone", "gone")] }

/-- C1: for every invoice amount and risk band string, `calculateOffer`
returns advancePercent/feePercent exactly per the fixed table (low →
90/2.5, medium → 85/3.0, high → 80/3.5, any other band → the medium row
85/3.0, never an error), with `advanceAmount = ⌊amount * advancePercent /
100⌋`, `feeAmount = ⌊amount * feePercent / 100⌋`, `netReceived =
advanceAmount` and `remainingAmount = amount - advanceAmount - feeAmount`
— stated as equality with the spec-words rendering
`specOfferCalculator`. -/
theorem calculateOffer_eq_spec (amount : ℤ) (riskBand : String) :
    calculateOffer amount riskBand = specOfferCalculator amount riskBand := by
  unfold calculateOffer specOfferCalculator
  by_cases h1 : riskBand = "low"
  · simp [h1, Offer.mk.injEq]
  · by_cases h2 : riskBand = "medium"
    · simp [h1, h2, Offer.mk.injEq]
      norm_num
    · by_cases h3 : riskBand = "high"
      · simp [h1, h2, h3, Offer.mk.injEq]
      · simp [h1, h2, h3, Offer.mk.injEq]
        norm_num

/-- C3: for every amount and days-until-due, the simple-mode risk band is
low if amount < 25000 and days < 60, otherwise medium if amount < 40000
and days < 45, otherwise high — stated as equality with the spec-words
rendering `specSimpleMode`. -/
theorem simpleRiskBand_eq_spec (amount daysToDue : ℤ) :
    simpleRiskBand amount daysToDue = specSimpleMode amount daysToDue := by
  unfold simpleRiskBand specSimpleMode
  split_ifs <;> first | rfl | (exfalso; omega)

/-- C9: the simple-mode banding is monotone — raising the amount and the
days-to-due never lowers the risk level (low < medium < high). -/
theorem simpleRiskBand_monotone (a₁ a₂ d₁ d₂ : ℤ)
    (ha : a₁ ≤ a₂) (hd : d₁ ≤ d₂) :
    (simpleRiskBand a₁ d₁).level ≤ (simpleRiskBand a₂ d₂).level := by
  unfold simpleRiskBand
  split_ifs <;> simp [RiskBand.level] <;> omega

/-- Witness for C9 at amount 1000 ≤ 30000, days 10 ≤ 50. -/
theorem simpleRiskBand_monotone_witness :
    ((1000 : ℤ) ≤ 30000 ∧ (10 : ℤ) ≤ 50) ∧
      (simpleRiskBand 1000 10).level ≤ (simpleRiskBand 30000 50).level :=
  ⟨⟨by norm_num, by norm_num⟩,
    simpleRiskBand_monotone 1000 30000 10 50 (by norm_num) (by norm_num)⟩

/-- C4 counterexample: at amount = 25000 and 59 days to due, the
simple-mode band is not low (the low branch needs amount < 25000
strictly), so the claimed scenario fails at its first step. -/
theorem scenario25000_band_not_low :
    ¬ simpleRiskBand 25000 59 = RiskBand.low := by decide

/-- C4 amended: at amount = 25000 and 59 days to due the simple-mode band
is high, and the resulting offer is advancePercent = 80, advanceAmount =
20000, feePercent = 3.5, feeAmount = 875, remainingAmount = 4125. -/
theorem scenario25000_high_offer :
    simpleRiskBand 25000 59 = RiskBand.high ∧
      calculateOffer 25000 (simpleRiskBand 25000 59).str =
        { advancePercent := 80, feePercent := 3.5, advanceAmount := 20000,
          fee := 875, netReceived := 20000, remainingAmount := 4125 } := by
  refine ⟨by decide, ?_⟩
  have h : (simpleRiskBand 25000 59).str = "high" := by decide
  rw [h]
  simp +decide only [calculateOffer, Offer.mk.injEq]
  norm_num

/-- Floors of two percentage shares whose percents sum to at most 100
cannot exceed the whole amount. -/
theorem floor_pct_add_floor_pct_le (a : ℤ) (p f : ℚ)
    (ha : 0 ≤ a) (_hp : 0 ≤ p) (_hf : 0 ≤ f) (hpf : p + f ≤ 100) :
    ⌊((a : ℚ) * p) / 100⌋ + ⌊((a : ℚ) * f) / 100⌋ ≤ a := by
  have ha' : (0 : ℚ) ≤ (a : ℚ) := by exact_mod_cast ha
  have h1 : ((⌊((a : ℚ) * p) / 100⌋ : ℚ)) ≤ (a : ℚ) * p / 100 := Int.floor_le _
  have h2 : ((⌊((a : ℚ) * f) / 100⌋ : ℚ)) ≤ (a : ℚ) * f / 100 := Int.floor_le _
  have h3 : (a : ℚ) * p / 100 + (a : ℚ) * f / 100 ≤ (a : ℚ) := by
    have h4 := mul_le_mul_of_nonneg_left hpf ha'
    linarith
  have h5 : ((⌊((a : ℚ) * p) / 100⌋ + ⌊((a : ℚ) * f) / 100⌋ : ℤ) : ℚ)
      ≤ (a : ℚ) := by
    push_cast
    linarith
  exact_mod_cast h5

/-- C6: for every non-negative amount and every band string,
`calculateOffer` satisfies `advanceAmount + feeAmount ≤ amount`,
equivalently `remainingAmount = amount - advanceAmount - feeAmount ≥ 0`. -/
theorem calculateOffer_sum_le (amount : ℤ) (riskBand : String)
    (h : 0 ≤ amount) :
    (calculateOffer amount riskBand).advanceAmount
        + (calculateOffer amount riskBand).fee ≤ amount
      ∧ 0 ≤ (calculateOffer amount riskBand).remainingAmount := by
  have main : (calculateOffer amount riskBand).advanceAmount
      + (calculateOffer amount riskBand).fee ≤ amount := by
    simp only [calculateOffer]
    split_ifs <;> (apply floor_pct_add_floor_pct_le amount _ _ h <;> norm_num)
  have hrem : (calculateOffer amount riskBand).remainingAmount =
      amount - (calculateOffer amount riskBand).advanceAmount
        - (calculateOffer amount riskBand).fee := by
    simp only [calculateOffer]
  refine ⟨main, ?_⟩
  rw [hrem]
  linarith

/-- Witness for C6 at amount 25000, band "high". -/
theorem calculateOffer_sum_le_witness :
    ((0 : ℤ) ≤ 25000) ∧
      ((calculateOffer 25000 "high").advanceAmount
          + (calculateOffer 25000 "high").fee ≤ 25000
        ∧ 0 ≤ (calculateOffer 25000 "high").remainingAmount) :=
  ⟨by norm_num, calculateOffer_sum_le 25000 "high" (by norm_num)⟩

/-- The source's clamp `max 0.1 (min 1.0 s)` agrees with the spec's
"clamp to [0.1, 1.0]" written as an if-chain. -/
theorem clamp_eq (x : ℚ) :
    max 0.1 (min 1.0 x) = if x < 0.1 then (0.1 : ℚ) else if x > 1 then 1 else x := by
  simp only [max_def, min_def]
  split_ifs <;> first | rfl | linarith

/-- Congruence form of `clamp_eq`, for rewriting under an equal scrutinee. -/
theorem clamp_congr (x y : ℚ) (h : x = y) :
    max 0.1 (min 1.0 x)
      = if y < 0.1 then (0.1 : ℚ) else if y > 1 then 1 else y := by
  subst h
  exact clamp_eq x

/-- C5: for every scored-mode input (amount, days-to-due, auxiliary
ratios in (0,1]), the risk score equals the spec formula (base 0.8,
amount and days deductions, multiplication by each ratio, clamp to
[0.1, 1.0]), and the band of the score is low iff score ≥ 0.8, medium
iff 0.6 ≤ score < 0.8, else high. -/
theorem scoredMode_spec (amount daysToDue : ℤ)
    (buyerProfile paymentHistory industryRisk : ℚ)
    (_hb : 0 < buyerProfile ∧ buyerProfile ≤ 1)
    (_hph : 0 < paymentHistory ∧ paymentHistory ≤ 1)
    (_hir : 0 < industryRisk ∧ industryRisk ≤ 1) :
    calculateRiskScore amount daysToDue buyerProfile paymentHistory industryRisk
        = specScoredMode amount daysToDue buyerProfile paymentHistory industryRisk
      ∧ (determineRiskBand (calculateRiskScore amount daysToDue buyerProfile
            paymentHistory industryRisk) = .low
          ↔ 0.8 ≤ calculateRiskScore amount daysToDue buyerProfile
              paymentHistory industryRisk)
      ∧ (determineRiskBand (calculateRiskScore amount daysToDue buyerProfile
            paymentHistory industryRisk) = .medium
          ↔ 0.6 ≤ calculateRiskScore amount daysToDue buyerProfile
                paymentHistory industryRisk
            ∧ calculateRiskScore amount daysToDue buyerProfile
                paymentHistory industryRisk < 0.8)
      ∧ (determineRiskBand (calculateRiskScore amount daysToDue buyerProfile
            paymentHistory industryRisk) = .high
          ↔ calculateRiskScore amount daysToDue buyerProfile
              paymentHistory industryRisk < 0.6) := by
  have hbands : ∀ q : ℚ, (determineRiskBand q = .low ↔ 0.8 ≤ q)
      ∧ (determineRiskBand q = .medium ↔ 0.6 ≤ q ∧ q < 0.8)
      ∧ (determineRiskBand q = .high ↔ q < 0.6) := by
    intro q
    unfold determineRiskBand
    split_ifs with h1 h2
    · exact ⟨iff_of_true rfl h1,
        iff_of_false (by decide) (fun hc => absurd h1 (not_le.mpr hc.2)),
        iff_of_false (by decide) (not_lt.mpr (by linarith))⟩
    · exact ⟨iff_of_false (by decide) h1,
        iff_of_true rfl ⟨h2, not_le.mp h1⟩,
        iff_of_false (by decide) (not_lt.mpr h2)⟩
    · exact ⟨iff_of_false (by decide) h1,
        iff_of_false (by decide) (fun hc => h2 hc.1),
        iff_of_true rfl (not_le.mp h2)⟩
  have heq : calculateRiskScore amount daysToDue buyerProfile paymentHistory
      industryRisk = specScoredMode amount daysToDue buyerProfile
      paymentHistory industryRisk := by
    simp only [calculateRiskScore, specScoredMode]
    exact clamp_congr _ _ (by split_ifs <;> ring)
  exact ⟨heq, (hbands _).1, (hbands _).2.1, (hbands _).2.2⟩

/-- Witness for C5 at amount 25000, 30 days, ratios 0.9/0.9/0.8. -/
theorem scoredMode_spec_witness :
    (((0 : ℚ) < 0.9 ∧ (0.9 : ℚ) ≤ 1) ∧ ((0 : ℚ) < 0.9 ∧ (0.9 : ℚ) ≤ 1)
        ∧ ((0 : ℚ) < 0.8 ∧ (0.8 : ℚ) ≤ 1))
      ∧ (calculateRiskScore 25000 30 0.9 0.9 0.8
            = specScoredMode 25000 30 0.9 0.9 0.8
          ∧ (determineRiskBand (calculateRiskScore 25000 30 0.9 0.9 0.8)
                = .low ↔ 0.8 ≤ calculateRiskScore 25000 30 0.9 0.9 0.8)
          ∧ (determineRiskBand (calculateRiskScore 25000 30 0.9 0.9 0.8)
                = .medium ↔ 0.6 ≤ calculateRiskScore 25000 30 0.9 0.9 0.8
              ∧ calculateRiskScore 25000 30 0.9 0.9 0.8 < 0.8)
          ∧ (determineRiskBand (calculateRiskScore 25000 30 0.9 0.9 0.8)
                = .high ↔ calculateRiskScore 25000 30 0.9 0.9 0.8 < 0.6)) :=
  ⟨⟨⟨by norm_num, by norm_num⟩, ⟨by norm_num, by norm_num⟩,
      ⟨by norm_num, by norm_num⟩⟩,
    scoredMode_spec 25000 30 0.9 0.9 0.8 ⟨by norm_num, by norm_num⟩
      ⟨by norm_num, by norm_num⟩ ⟨by norm_num, by norm_num⟩⟩

/-- Overwriting a key and reading it back yields the written value. -/
theorem kvGet_kvSet_self {α : Type} (store : List (String × α)) (k : String)
    (v : α) : kvGet (kvSet store k v) k = some v := by
  induction store with
  | nil => simp [kvSet, kvGet]
  | cons hd tl ih =>
      obtain ⟨k', w⟩ := hd
      by_cases h : k' = k
      · subst h
        simp [kvSet, kvGet]
      · simp [kvSet, kvGet, h, ih]

/-- Unfolding of one successful `markPaid` run: with the advance present,
the handler returns the state with the advance overwritten (status
"paid"), the new settlement stored, and the settlement index entry
written. -/
theorem markPaid_run (st : ServerState) (advanceId : String) (now : ℤ)
    (settlementId : String) (advance : Advance)
    (h : kvGet st.advances advanceId = some advance) :
    markPaid st advanceId now settlementId = Except.ok
      { st with
        advances := kvSet st.advances advanceId
          { advance with status := "paid" }
        settlements := kvSet st.settlements settlementId
          { id := settlementId
            invoiceId := advance.invoiceId
            userId := DEFAULT_USER_ID
            filename := advance.filename
            buyer := advance.buyer
            invoiceAmount := advance.invoiceAmount
            advanceAmount := advance.advanceAmount
            feeAmount :=
              ⌊((advance.invoiceAmount : ℚ) * advance.feePercent) / 100⌋
            feePercent := advance.feePercent
            remainingAmount := advance.invoiceAmount - advance.advanceAmount
              - ⌊((advance.invoiceAmount : ℚ) * advance.feePercent) / 100⌋
            settlementAmount := advance.invoiceAmount - advance.advanceAmount
              - ⌊((advance.invoiceAmount : ℚ) * advance.feePercent) / 100⌋
            paidDate := now
            createdAt := advance.createdAt
            riskBand := advance.riskBand
            daysToPay :=
              ⌈((now - advance.createdAt : ℤ) : ℚ) / 86400000⌉ }
        userIndex := kvSet st.userIndex
          ("user:" ++ DEFAULT_USER_ID ++ ":settlement:" ++ settlementId)
          settlementId } := by
  unfold markPaid
  rw [h]

/-- C7: marking an existing advance paid stores exactly the settlement
recomputed from the advance's own fields (feeAmount floored from
invoiceAmount × feePercent, remainingAmount = invoiceAmount −
advanceAmount − feeAmount, settlementAmount = remainingAmount, daysToPay
the ceiling of elapsed days since the advance's creation, createdAt
copied from the advance), sets the advance's status to "paid", and an
unknown advanceId yields the not-found error. -/
theorem markPaid_correct (st : ServerState) (advanceId : String) (now : ℤ)
    (settlementId : String) :
    (∀ advance : Advance, kvGet st.advances advanceId = some advance →
      ∃ st' : ServerState,
        markPaid st advanceId now settlementId = Except.ok st'
        ∧ kvGet st'.settlements settlementId = some
            { id := settlementId
              invoiceId := advance.invoiceId
              userId := DEFAULT_USER_ID
              filename := advance.filename
              buyer := advance.buyer
              invoiceAmount := advance.invoiceAmount
              advanceAmount := advance.advanceAmount
              feeAmount :=
                ⌊((advance.invoiceAmount : ℚ) * advance.feePercent) / 100⌋
              feePercent := advance.feePercent
              remainingAmount := advance.invoiceAmount - advance.advanceAmount
                - ⌊((advance.invoiceAmount : ℚ) * advance.feePercent) / 100⌋
              settlementAmount := advance.invoiceAmount - advance.advanceAmount
                - ⌊((advance.invoiceAmount : ℚ) * advance.feePercent) / 100⌋
              paidDate := now
              createdAt := advance.createdAt
              riskBand := advance.riskBand
              daysToPay := ⌈((now - advance.createdAt : ℤ) : ℚ) / 86400000⌉ }
        ∧ kvGet st'.advances advanceId = some { advance with status := "paid" })
    ∧ (kvGet st.advances advanceId = none →
        markPaid st advanceId now settlementId
          = Except.error "Advance not found") := by
  constructor
  · intro advance h
    exact ⟨_, markPaid_run st advanceId now settlementId advance h,
      kvGet_kvSet_self _ _ _, kvGet_kvSet_self _ _ _⟩
  · intro h
    unfold markPaid
    rw [h]

/-- Witness for C7: both branches instantiated on `stActive` — an
existing advance ("a2") and an unknown one ("zz"). -/
theorem markPaid_correct_witness :
    (∃ st' : ServerState,
        markPaid stActive "a2" 432000000 "s2" = Except.ok st'
        ∧ kvGet st'.settlements "s2" = some
            { id := "s2"
              invoiceId := advActive.invoiceId
              userId := DEFAULT_USER_ID
              filename := advActive.filename
              buyer := advActive.buyer
              invoiceAmount := advActive.invoiceAmount
              advanceAmount := advActive.advanceAmount
              feeAmount :=
                ⌊((advActive.invoiceAmount : ℚ) * advActive.feePercent) / 100⌋
              feePercent := advActive.feePercent
              remainingAmount := advActive.invoiceAmount
                - advActive.advanceAmount
                - ⌊((advActive.invoiceAmount : ℚ) * advActive.feePercent) / 100⌋
              settlementAmount := advActive.invoiceAmount
                - advActive.advanceAmount
                - ⌊((advActive.invoiceAmount : ℚ) * advActive.feePercent) / 100⌋
              paidDate := 432000000
              createdAt := advActive.createdAt
              riskBand := advActive.riskBand
              daysToPay :=
                ⌈((432000000 - advActive.createdAt : ℤ) : ℚ) / 86400000⌉ }
        ∧ kvGet st'.advances "a2" = some { advActive with status := "paid" })
    ∧ markPaid stActive "zz" 432000000 "s2"
        = Except.error "Advance not found" :=
  ⟨(markPaid_correct stActive "a2" 432000000 "s2").1 advActive rfl,
    (markPaid_correct stActive "zz" 432000000 "s2").2 rfl⟩

/-- C10: marking an existing advance paid writes back an advance record
that differs from the stored one only in `status` (now "paid"); every
other field keeps its prior value. -/
theorem markPaid_frame (st : ServerState) (advanceId : String) (now : ℤ)
    (settlementId : String) (advance : Advance)
    (h : kvGet st.advances advanceId = some advance) :
    ∃ (st' : ServerState) (updated : Advance),
      markPaid st advanceId now settlementId = Except.ok st'
      ∧ kvGet st'.advances advanceId = some updated
      ∧ updated.status = "paid"
      ∧ updated.id = advance.id
      ∧ updated.invoiceId = advance.invoiceId
      ∧ updated.userId = advance.userId
      ∧ updated.filename = advance.filename
      ∧ updated.buyer = advance.buyer
      ∧ updated.invoiceAmount = advance.invoiceAmount
      ∧ updated.advanceAmount = advance.advanceAmount
      ∧ updated.feePercent = advance.feePercent
      ∧ updated.dueDate = advance.dueDate
      ∧ updated.createdAt = advance.createdAt
      ∧ updated.riskBand = advance.riskBand := by
  exact ⟨_, { advance with status := "paid" },
    markPaid_run st advanceId now settlementId advance h,
    kvGet_kvSet_self _ _ _,
    rfl, rfl, rfl, rfl, rfl, rfl, rfl, rfl, rfl, rfl, rfl, rfl⟩

/-- Witness for C10 on `stActive`. -/
theorem markPaid_frame_witness :
    ∃ (st' : ServerState) (updated : Advance),
      markPaid stActive "a2" 432000000 "s3" = Except.ok st'
      ∧ kvGet st'.advances "a2" = some updated
      ∧ updated.status = "paid"
      ∧ updated.id = advActive.id
      ∧ updated.invoiceId = advActive.invoiceId
      ∧ updated.userId = advActive.userId
      ∧ updated.filename = advActive.filename
      ∧ updated.buyer = advActive.buyer
      ∧ updated.invoiceAmount = advActive.invoiceAmount
      ∧ updated.advanceAmount = advActive.advanceAmount
      ∧ updated.feePercent = advActive.feePercent
      ∧ updated.dueDate = advActive.dueDate
      ∧ updated.createdAt = advActive.createdAt
      ∧ updated.riskBand = advActive.riskBand :=
  markPaid_frame stActive "a2" 432000000 "s3" advActive rfl

/-- C2 exhibit: calling mark-paid on the already-paid advance "a1" is NOT
rejected — the handler succeeds and a second settlement for the same
invoice is stored (the settlements list grows from one to two entries,
both pointing at invoice "i1"). -/
theorem markPaid_paid_advance_not_rejected :
    advPaid.status = "paid"
    ∧ kvGet stPaid.advances "a1" = some advPaid
    ∧ stPaid.settlements.length = 1
    ∧ ∃ st' : ServerState,
        markPaid stPaid "a1" 864000000 "s1" = Except.ok st'
        ∧ st'.settlements.length = 2
        ∧ st'.settlements.map (fun e => e.2.invoiceId) = ["i1", "i1"] :=
  ⟨rfl, rfl, rfl, _, rfl, rfl, rfl⟩

/-- C8: for every state, the advances listing resolves each id found in
the owner's index to its primary record and silently drops dangling
entries: a record appears in the output exactly when some index entry
resolves to it, and if every index entry is dangling the result is the
empty list (the listing itself is a total function — it never fails). -/
theorem getAdvances_resolves_and_skips (st : ServerState) :
    (∀ a : Advance, a ∈ getAdvances st ↔
        ∃ advanceId ∈ kvGetByPrefix st.userIndex
            ("user:" ++ DEFAULT_USER_ID ++ ":advance:"),
          kvGet st.advances advanceId = some a)
    ∧ ((∀ advanceId ∈ kvGetByPrefix st.userIndex
            ("user:" ++ DEFAULT_USER_ID ++ ":advance:"),
          kvGet st.advances advanceId = none) → getAdvances st = []) := by
  constructor
  · intro a
    simp only [getAdvances]
    rw [List.mem_mergeSort, List.mem_filterMap]
  · intro h
    have hnil : List.filterMap (fun advanceId => kvGet st.advances advanceId)
        (kvGetByPrefix st.userIndex ("user:" ++ DEFAULT_USER_ID ++ ":advance:"))
        = [] := List.filterMap_eq_nil_iff.mpr h
    simp only [getAdvances]
    rw [hnil, List.mergeSort_nil]

/-- Witness for C8: on `stDangling` every index entry is dangling and the
listing returns the empty list without failing. -/
theorem getAdvances_skips_dangling_witness :
    (∀ advanceId ∈ kvGetByPrefix stDangling.userIndex
        ("user:" ++ DEFAULT_USER_ID ++ ":advance:"),
      kvGet stDangling.advances advanceId = none)
    ∧ getAdvances stDangling = [] :=
  ⟨fun _ _ => rfl,
    (getAdvances_resolves_and_skips stDangling).2 (fun _ _ => rfl)⟩
